import Mathlib

/-!
Verification of the donor-dashboard client of the p2p blood-donation app.

The definitions below are a shallow embedding of the TypeScript source:
`DonorHomeScreen` (profile-status loading and rendering, donor stats,
donor details, recent donations, the 1-second polling effect) and the
`CustomAlert` dialog component. Network calls are modelled as explicit
`Except`-valued results handed to the state-update functions; JSX
conditional rendering is modelled as functions from state to a small
inductive of render branches.
-/

/-- Truthiness of a nullable JS string: `null`/`undefined` and the empty
string are falsy, every other string is truthy. -/
def jsTruthy : Option String → Bool
  | none => false
  | some s => !(s == "")

/-- JS `a || b` restricted to nullable strings: returns `b` when `a` is
absent or the empty string, otherwise `a`. -/
def jsOr (a b : Option String) : Option String :=
  match a with
  | none => b
  | some s => if s == "" then b else some s

/-- JS `String.prototype.toLowerCase` on the strings used here: lowercase
every character. -/
def jsToLowerCase (s : String) : String :=
  String.mk (s.data.map Char.toLower)

/-- The profile object of a `profileAPI.getDonorProfile` response. The
status and remarks may arrive under a snake_case or camelCase key. -/
structure DonorProfile where
  approval_status : Option String
  approvalStatus : Option String
  admin_remarks : Option String
  adminRemarks : Option String
deriving Repr, DecidableEq

/-- Response shape of `profileAPI.getDonorProfile`. -/
structure ProfileResponse where
  success : Bool
  profile : Option DonorProfile
deriving Repr, DecidableEq

/-- The slice of dashboard state written by `loadProfileStatus`:
the `profileStatus` string state and the `profileRemarks` string state. -/
structure ProfileState where
  profileStatus : String
  profileRemarks : String
deriving Repr, DecidableEq

/-- `loadProfileStatus` from `DonorHomeScreen`: on a successful response
carrying a profile it reads `approval_status || approvalStatus`, lowercases
it (a missing status field makes `status.toLowerCase()` throw, which the
surrounding catch turns into status `"none"`), and stores
`admin_remarks || adminRemarks || ''`; a `success:false` response, a
success response without a profile, and a thrown error all set the status
to `"none"` and leave the remarks untouched. -/
def loadProfileStatus (result : Except Unit ProfileResponse)
    (st : ProfileState) : ProfileState :=
  match result with
  | .error _ => { st with profileStatus := "none" }
  | .ok r =>
    match r.success, r.profile with
    | true, some p =>
      match jsOr p.approval_status p.approvalStatus with
      | some s =>
        { profileStatus := jsToLowerCase s,
          profileRemarks :=
            (jsOr (jsOr p.admin_remarks p.adminRemarks) (some "")).getD "" }
      | none => { st with profileStatus := "none" }
    | true, none => { st with profileStatus := "none" }
    | false, _ => { st with profileStatus := "none" }

/-- The mutually exclusive render branches of the profile status card. -/
inductive ProfileBranch where
  | loadingView
  | incomplete
  | pendingReview
  | rejectedCard
  | approvedCard
  | nothing
deriving Repr, DecidableEq

/-- The conditional chain rendering the profile status card in
`DonorHomeScreen`: `loading`shows the activity indicator, `none` the
complete-your-profile card, then `pending`, `rejected`, `approved`, and
any other value falls through to `null`. -/
def renderProfileStatusCard (profileStatus : String) : ProfileBranch :=
  if profileStatus == "loading" then .loadingView
  else if profileStatus == "none" then .incomplete
  else if profileStatus == "pending" then .pendingReview
  else if profileStatus == "rejected" then .rejectedCard
  else if profileStatus == "approved" then .approvedCard
  else .nothing

/-- The values of the declared union type of the `profileStatus` state. -/
def declaredProfileStatuses : List String :=
  ["loading", "none", "pending", "approved", "rejected"]

/-- The `donorInfo` state of the dashboard. -/
structure DonorInfo where
  bloodType : Option String
  lastDonation : Option String
  nextEligible : Option String
  daysUntilEligible : Option Int
  isEligible : Bool
deriving Repr, DecidableEq

/-- Initial `donorInfo` state set by `useState`. -/
def initialDonorInfo : DonorInfo :=
  { bloodType := none, lastDonation := none, nextEligible := none,
    daysUntilEligible := none, isEligible := false }

/-- Response shape of `GET /api/donor/{id}/details`. -/
structure DonorDetailsResponse where
  success : Bool
  bloodGroup : Option String
  lastDonation : Option String
  nextEligible : Option String
  daysUntilEligible : Option Int
  isEligible : Bool
deriving Repr, DecidableEq

/-- `loadDonorDetails` from `DonorHomeScreen`: a successful response with
`success:true` overwrites `donorInfo` with the response fields verbatim;
a `success:false` response or a thrown error leaves it unchanged. -/
def loadDonorDetails (result : Except Unit DonorDetailsResponse)
    (prev : DonorInfo) : DonorInfo :=
  match result with
  | .error _ => prev
  | .ok d =>
    if d.success then
      { bloodType := d.bloodGroup, lastDonation := d.lastDonation,
        nextEligible := d.nextEligible,
        daysUntilEligible := d.daysUntilEligible,
        isEligible := d.isEligible }
    else prev

/-- Response shape of `bloodRequestAPI.getDonorStats`. -/
structure DonorStats where
  donatedCount : Nat
deriving Repr, DecidableEq

/-- `loadDonorStats` from `DonorHomeScreen`: a resolved response stores
`stats.donatedCount`; a thrown error is caught and the count is left at
its previous value. -/
def loadDonorStats (result : Except Unit DonorStats) (prev : Nat) : Nat :=
  match result with
  | .error _ => prev
  | .ok s => s.donatedCount

/-- The countdown-badge guard in the eligibility card of `DonorHomeScreen`:
the card itself renders only when `donorInfo.bloodType` is truthy, and the
footer with the badge additionally requires `!isEligible`,
`daysUntilEligible !== null`, `daysUntilEligible > 0` and a truthy
`nextEligible`. -/
def countdownBadgeRendered (info : DonorInfo) : Bool :=
  jsTruthy info.bloodType && !info.isEligible &&
    (match info.daysUntilEligible with
     | none => false
     | some d => decide (0 < d)) &&
    jsTruthy info.nextEligible

/-- One entry of the `recentDonations` state list. -/
structure DonationRecord where
  date : String
  location : String
  units : Nat
  bloodGroup : Option String
deriving Repr, DecidableEq

/-- Response shape of `GET /api/donor/{id}/recent-donations?limit=5`. -/
structure RecentDonationsResponse where
  success : Bool
  donations : List DonationRecord
deriving Repr, DecidableEq

/-- The slice of dashboard state written by `loadRecentDonations`. -/
structure DonationsState where
  recentDonations : List DonationRecord
  loadingDonations : Bool
deriving Repr, DecidableEq

/-- `loadRecentDonations` from `DonorHomeScreen`: a `success:true`
response replaces the stored list with `data.donations`; a `success:false`
response or a thrown error leaves the list unchanged; the `finally` block
clears the loading flag on every path. -/
def loadRecentDonations (result : Except Unit RecentDonationsResponse)
    (st : DonationsState) : DonationsState :=
  match result with
  | .error _ => { st with loadingDonations := false }
  | .ok d =>
    if d.success then
      { recentDonations := d.donations, loadingDonations := false }
    else { st with loadingDonations := false }

/-- The mutually exclusive render branches of the recent-donations
section. -/
inductive DonationsSectionView where
  | loadingView
  | itemsView (items : List DonationRecord)
  | emptyState
deriving Repr, DecidableEq

/-- The conditional chain rendering the recent-donations section in
`DonorHomeScreen`: the loading card while `loadingDonations`, otherwise
one history item per element of `recentDonations` when the list is
non-empty, otherwise the empty-state message. -/
def renderRecentDonations (st : DonationsState) : DonationsSectionView :=
  if st.loadingDonations then .loadingView
  else if 0 < st.recentDonations.length then .itemsView st.recentDonations
  else .emptyState

/-- Number of donation history items shown by a rendered section. -/
def donationItemCount : DonationsSectionView → Nat
  | .itemsView items => items.length
  | _ => 0

/-- Whether a rendered section is the empty-state message. -/
def showsEmptyState : DonationsSectionView → Bool
  | .emptyState => true
  | _ => false

/-- Semantic style tag of an alert button. -/
inductive ButtonStyle where
  | defaultStyle
  | cancel
  | destructive
deriving Repr, DecidableEq

/-- The `AlertButton` interface of `CustomAlert`: a label, an optional
press callback (identified here by a number), and an optional style. -/
structure AlertButton where
  text : String
  onPress : Option Nat
  style : Option ButtonStyle
deriving Repr, DecidableEq

/-- Observable callback invocations of the alert dialog. -/
inductive AlertEvent where
  | actionCallback (cb : Nat)
  | dismissCallback
deriving Repr, DecidableEq

/-- `handleButtonPress` from `CustomAlert`: invoke the pressed button's
own callback when present, then the shared `onDismiss` callback when
present. The returned list is the invocation sequence of one press. -/
def handleButtonPress (button : AlertButton) (onDismiss : Option Unit) :
    List AlertEvent :=
  (match button.onPress with
   | some cb => [AlertEvent.actionCallback cb]
   | none => []) ++
  (match onDismiss with
   | some _ => [AlertEvent.dismissCallback]
   | none => [])

/-- The default of the `buttons` prop of `CustomAlert`:
`[{ text: 'OK', style: 'default' }]`, applied only when the prop is
omitted. -/
def defaultAlertButtons : List AlertButton :=
  [{ text := "OK", onPress := none, style := some ButtonStyle.defaultStyle }]

/-- The button list `CustomAlert` actually works with: the given prop, or
the single default OK button when the prop is omitted. -/
def effectiveButtons (buttons : Option (List AlertButton)) :
    List AlertButton :=
  buttons.getD defaultAlertButtons

/-- One rendered touchable in the alert's button row: its label, whether
the single-button full-width style was applied (`buttons.length === 1`),
and its style tag. -/
structure RenderedButton where
  text : String
  singleFullWidth : Bool
  style : Option ButtonStyle
deriving Repr, DecidableEq

/-- The `buttons.map(...)` render of `CustomAlert`: one touchable per
button, with the full-width style exactly when the list has length one. -/
def renderAlertButtons (buttons : List AlertButton) : List RenderedButton :=
  buttons.map (fun b =>
    { text := b.text, singleFullWidth := buttons.length == 1,
      style := b.style })

/-- Lifecycle state of the dashboard screen and its polling effect:
whether the component is mounted, whether the 1-second interval is still
scheduled, the ids of detail polls in flight, the `donorInfo` state, and a
flag recording whether `setDonorInfo` was ever invoked while unmounted. -/
structure PollMachine where
  mounted : Bool
  intervalActive : Bool
  inFlight : List Nat
  donorInfo : DonorInfo
  setterCalledAfterUnmount : Bool
deriving Repr, DecidableEq

/-- Events of the polling lifecycle: an interval tick launching a details
poll, the unmount of the screen, and the completion of an outstanding
poll with its network result. -/
inductive PollEvent where
  | timerTick (id : Nat)
  | unmountScreen
  | completeDetails (id : Nat) (result : Except Unit DonorDetailsResponse)
deriving Repr

/-- One step of the screen lifecycle, translated from the polling
`useEffect` of `DonorHomeScreen`: a tick launches a poll only while the
interval is scheduled; the effect cleanup on unmount runs
`clearInterval` only, leaving in-flight requests outstanding; and the
completion handler has no mounted guard, so it runs `loadDonorDetails`
and (on a `success:true` response) calls the `setDonorInfo` setter
regardless of whether the screen is still mounted. -/
def pollStep (s : PollMachine) : PollEvent → PollMachine
  | .timerTick id =>
    if s.intervalActive then { s with inFlight := id :: s.inFlight } else s
  | .unmountScreen => { s with mounted := false, intervalActive := false }
  | .completeDetails id result =>
    if id ∈ s.inFlight then
      { s with
        inFlight := s.inFlight.erase id,
        donorInfo := loadDonorDetails result s.donorInfo,
        setterCalledAfterUnmount := s.setterCalledAfterUnmount ||
          ((match result with
            | .ok d => d.success
            | .error _ => false) && !s.mounted) }
    else s

/-- The screen right after mount: interval scheduled, nothing in flight. -/
def mountedPollMachine : PollMachine :=
  { mounted := true, intervalActive := true, inFlight := [],
    donorInfo := initialDonorInfo, setterCalledAfterUnmount := false }

/-- Run a sequence of lifecycle events from the freshly mounted screen. -/
def runPoll (events : List PollEvent) : PollMachine :=
  events.foldl pollStep mountedPollMachine

/-- A well-formed `success:true` details response, used as the payload of
a poll that completes after unmount. -/
def staleDetailsResponse : DonorDetailsResponse :=
  { success := true, bloodGroup := some "O-",
    lastDonation := some "2025-09-01", nextEligible := some "2025-12-01",
    daysUntilEligible := some 51, isEligible := false }

/-- C1: among the declared values of the dashboard's profile-status state,
every one outside {approved, pending, rejected, none} (that is, only
`"loading"`) renders the loading branch of the profile status card, and no
other branch. -/
theorem profileStatusCard_loading_branch (s : String)
    (hdecl : s ∈ declaredProfileStatuses)
    (hnot : s ∉ (["approved", "pending", "rejected", "none"] : List String)) :
    renderProfileStatusCard s = ProfileBranch.loadingView := by
  fin_cases hdecl <;> simp_all [renderProfileStatusCard]

/-- Witness for C1 at the concrete status `"loading"`. -/
theorem profileStatusCard_loading_branch_witness :
    renderProfileStatusCard "loading" = ProfileBranch.loadingView :=
  profileStatusCard_loading_branch "loading" (by decide) (by decide)

/-- C2: a response with `success:false`, a success response with no
profile object, and a thrown error all leave the profile status equal to
`"none"` — the failure paths converge to the same state. -/
theorem profileStatus_failure_converges_none (st : ProfileState)
    (r : ProfileResponse) (h : r.success = false ∨ r.profile = none) :
    (loadProfileStatus (.ok r) st).profileStatus = "none"
    ∧ ∀ e : Unit, (loadProfileStatus (.error e) st).profileStatus = "none" := by
  constructor
  · rcases r with ⟨su, pr⟩
    cases su <;> cases pr <;> simp_all [loadProfileStatus]
  · intro e
    rfl

/-- Witness for C2 at a concrete `success:false` response and a concrete
prior state. -/
theorem profileStatus_failure_converges_none_witness :
    (loadProfileStatus (.ok ⟨false, none⟩)
      ⟨"loading", ""⟩).profileStatus = "none"
    ∧ ∀ e : Unit,
      (loadProfileStatus (.error e) ⟨"loading", ""⟩).profileStatus = "none" :=
  profileStatus_failure_converges_none ⟨"loading", ""⟩ ⟨false, none⟩
    (Or.inl rfl)

/-- C3: the countdown badge renders only when the donor is not eligible,
`daysUntilEligible` is non-null and strictly positive, and `nextEligible`
is non-null; in particular any zero or negative `daysUntilEligible`
suppresses the badge. -/
theorem countdownBadge_only_if_conditions (info : DonorInfo) :
    (countdownBadgeRendered info = true →
      info.isEligible = false
      ∧ (∃ d : Int, info.daysUntilEligible = some d ∧ 0 < d)
      ∧ info.nextEligible ≠ none)
    ∧ (∀ d : Int, info.daysUntilEligible = some d → d ≤ 0 →
      countdownBadgeRendered info = false) := by
  constructor
  · intro h
    rcases info with ⟨bt, ld, ne_, due, elig⟩
    simp only [countdownBadgeRendered, Bool.and_eq_true, Bool.not_eq_true'] at h
    obtain ⟨⟨⟨hbt, helig⟩, hdue⟩, hne⟩ := h
    refine ⟨helig, ?_, ?_⟩
    · cases due with
      | none => simp at hdue
      | some d => exact ⟨d, rfl, by simpa using hdue⟩
    · cases ne_ with
      | none => simp [jsTruthy] at hne
      | some s => simp
  · intro d hd hle
    rcases info with ⟨bt, ld, ne_, due, elig⟩
    simp only at hd
    subst hd
    simp [countdownBadgeRendered, not_lt.mpr hle]

/-- Witness for C3: with zero days until eligibility the badge is
suppressed even though every other condition holds. -/
theorem countdownBadge_only_if_conditions_witness :
    countdownBadgeRendered
      ⟨some "A+", some "2025-08-01", some "2025-11-01", some 0, false⟩
      = false :=
  (countdownBadge_only_if_conditions
    ⟨some "A+", some "2025-08-01", some "2025-11-01", some 0, false⟩).2
    0 rfl le_rfl

/-- C4: once loading is complete, a non-empty stored list renders exactly
one history item per element (the stored list itself, which a
`success:true` load sets verbatim to the server's donations), an empty
list renders the empty-state message, and the items and the empty state
are never rendered simultaneously. -/
theorem recentDonations_render_exclusive (st : DonationsState)
    (resp : RecentDonationsResponse) (hl : st.loadingDonations = false) :
    (st.recentDonations ≠ [] →
      renderRecentDonations st = .itemsView st.recentDonations
      ∧ donationItemCount (renderRecentDonations st)
          = st.recentDonations.length
      ∧ showsEmptyState (renderRecentDonations st) = false)
    ∧ (st.recentDonations = [] →
      renderRecentDonations st = .emptyState
      ∧ donationItemCount (renderRecentDonations st) = 0)
    ∧ ¬(0 < donationItemCount (renderRecentDonations st)
        ∧ showsEmptyState (renderRecentDonations st) = true)
    ∧ (resp.success = true →
      (loadRecentDonations (.ok resp)
        ⟨st.recentDonations, true⟩).recentDonations = resp.donations) := by
  rcases st with ⟨ds, loading⟩
  subst hl
  refine ⟨?_, ?_, ?_, ?_⟩
  · intro hne
    have hlen : 0 < ds.length := List.length_pos.mpr hne
    simp [renderRecentDonations, hlen, donationItemCount, showsEmptyState]
  · intro hnil
    subst hnil
    simp [renderRecentDonations, donationItemCount]
  · rintro ⟨hpos, hempty⟩
    by_cases hne : ds = []
    · subst hne
      simp [renderRecentDonations, donationItemCount] at hpos
    · have hlen : 0 < ds.length := List.length_pos.mpr hne
      simp [renderRecentDonations, hlen, showsEmptyState] at hempty
  · intro hs
    simp [loadRecentDonations, hs]

/-- Witness for C4 at a concrete one-element stored list and a concrete
successful response. -/
theorem recentDonations_render_exclusive_witness :
    renderRecentDonations ⟨[⟨"2025-09-01", "City Hospital", 1, some "A+"⟩],
        false⟩
      = .itemsView [⟨"2025-09-01", "City Hospital", 1, some "A+"⟩]
    ∧ (loadRecentDonations
        (.ok ⟨true, [⟨"2025-09-01", "City Hospital", 1, some "A+"⟩]⟩)
        ⟨[⟨"2025-09-01", "City Hospital", 1, some "A+"⟩], true⟩).recentDonations
      = [⟨"2025-09-01", "City Hospital", 1, some "A+"⟩] := by
  have h := recentDonations_render_exclusive
    ⟨[⟨"2025-09-01", "City Hospital", 1, some "A+"⟩], false⟩
    ⟨true, [⟨"2025-09-01", "City Hospital", 1, some "A+"⟩]⟩ rfl
  exact ⟨(h.1 (by simp)).1, h.2.2.2 rfl⟩

/-- C5: a thrown error in the donor-stats refresh or the donor-details
refresh, and a `success:false` donor-details response, are all caught and
leave the corresponding state (donated count, donor info) unchanged. -/
theorem stats_details_failure_state_unchanged (prevCount : Nat)
    (prevInfo : DonorInfo) (d : DonorDetailsResponse)
    (h : d.success = false) :
    (∀ e : Unit, loadDonorStats (.error e) prevCount = prevCount)
    ∧ (∀ e : Unit, loadDonorDetails (.error e) prevInfo = prevInfo)
    ∧ loadDonorDetails (.ok d) prevInfo = prevInfo := by
  refine ⟨fun e => rfl, fun e => rfl, ?_⟩
  simp [loadDonorDetails, h]

/-- Witness for C5 at a concrete prior state and a concrete
`success:false` response. -/
theorem stats_details_failure_state_unchanged_witness :
    loadDonorDetails (.ok ⟨false, some "B-", none, none, none, true⟩)
      initialDonorInfo = initialDonorInfo :=
  (stats_details_failure_state_unchanged 3 initialDonorInfo
    ⟨false, some "B-", none, none, none, true⟩ rfl).2.2

/-- C6: the alert dialog renders one button per element of the given
list; pressing any listed button invokes that button's own callback (when
present) first and then the shared dismissal callback (when present),
each exactly once per press; and with a single action exactly one button
is rendered, carrying the full-width single-button style. -/
theorem alertButtons_press_and_render (buttons : List AlertButton)
    (onDismiss : Option Unit) :
    (renderAlertButtons buttons).length = buttons.length
    ∧ (∀ b, b ∈ buttons →
        (∀ cb, b.onPress = some cb → onDismiss = some () →
          handleButtonPress b onDismiss
            = [AlertEvent.actionCallback cb, AlertEvent.dismissCallback])
        ∧ (∀ cb, b.onPress = some cb → onDismiss = none →
          handleButtonPress b onDismiss = [AlertEvent.actionCallback cb])
        ∧ (b.onPress = none → onDismiss = some () →
          handleButtonPress b onDismiss = [AlertEvent.dismissCallback])
        ∧ (b.onPress = none → onDismiss = none →
          handleButtonPress b onDismiss = []))
    ∧ (buttons.length = 1 →
        (renderAlertButtons buttons).length = 1
        ∧ ∀ rb, rb ∈ renderAlertButtons buttons →
            rb.singleFullWidth = true) := by
  refine ⟨by simp [renderAlertButtons], ?_, ?_⟩
  · intro b _
    refine ⟨?_, ?_, ?_, ?_⟩ <;> intros <;>
      simp_all [handleButtonPress]
  · intro hone
    refine ⟨by simp [renderAlertButtons, hone], ?_⟩
    intro rb hrb
    simp only [renderAlertButtons, List.mem_map] at hrb
    obtain ⟨b, _, hb⟩ := hrb
    subst hb
    simp [hone]

/-- Witness for C6: pressing the destructive logout button with both a
press callback and a dismissal callback present fires the press callback
then the dismissal callback, once each. -/
theorem alertButtons_press_and_render_witness :
    handleButtonPress
      ⟨"Logout", some 7, some ButtonStyle.destructive⟩ (some ())
      = [AlertEvent.actionCallback 7, AlertEvent.dismissCallback] :=
  (((alertButtons_press_and_render
      [⟨"Logout", some 7, some ButtonStyle.destructive⟩] (some ())).2.1
      ⟨"Logout", some 7, some ButtonStyle.destructive⟩
      (by simp)).1 7 rfl rfl)

/-- C7: a successful donor-details response is copied into the stored
donor info verbatim — `bloodType` from `bloodGroup`, and `lastDonation`,
`nextEligible`, `daysUntilEligible`, `isEligible` unchanged — regardless
of the previous state and with no cross-validation between fields. -/
theorem donorDetails_copied_verbatim (prev : DonorInfo)
    (d : DonorDetailsResponse) (h : d.success = true) :
    loadDonorDetails (.ok d) prev =
      { bloodType := d.bloodGroup, lastDonation := d.lastDonation,
        nextEligible := d.nextEligible,
        daysUntilEligible := d.daysUntilEligible,
        isEligible := d.isEligible } := by
  simp [loadDonorDetails, h]

/-- Witness for C7 at a response whose `isEligible` flag disagrees with
its positive `daysUntilEligible`: both fields are stored as sent. -/
theorem donorDetails_copied_verbatim_witness :
    loadDonorDetails
      (.ok ⟨true, some "B+", some "2025-01-01", some "2025-04-01",
        some 45, true⟩) initialDonorInfo
      = ⟨some "B+", some "2025-01-01", some "2025-04-01", some 45, true⟩ :=
  donorDetails_copied_verbatim initialDonorInfo
    ⟨true, some "B+", some "2025-01-01", some "2025-04-01", some 45, true⟩
    rfl

/-- C8 (evaluating the code at the failing trace): a details poll
launched by the timer, still in flight when the screen unmounts,
completes afterwards and its result IS applied — the completion handler
calls the donor-info setter after unmount, because the effect cleanup
clears only the interval and never cancels or guards in-flight
requests. -/
theorem unmounted_poll_result_applied :
    (runPoll [PollEvent.timerTick 0, PollEvent.unmountScreen,
        PollEvent.completeDetails 0 (.ok staleDetailsResponse)]).mounted
      = false
    ∧ (runPoll [PollEvent.timerTick 0, PollEvent.unmountScreen,
        PollEvent.completeDetails 0
          (.ok staleDetailsResponse)]).setterCalledAfterUnmount = true
    ∧ (runPoll [PollEvent.timerTick 0, PollEvent.unmountScreen,
        PollEvent.completeDetails 0 (.ok staleDetailsResponse)]).donorInfo
      ≠ initialDonorInfo := by
  refine ⟨rfl, rfl, ?_⟩
  decide

/-- C9: with the `buttons` prop omitted, the alert falls back to a single
default-styled OK button with no press callback of its own; exactly one
(full-width) button is rendered, and pressing it invokes only the shared
dismissal callback (nothing at all when no dismissal callback is
given). -/
theorem defaultAlertButton_ok_dismiss_only :
    effectiveButtons none
      = [{ text := "OK", onPress := none,
           style := some ButtonStyle.defaultStyle }]
    ∧ renderAlertButtons (effectiveButtons none)
      = [{ text := "OK", singleFullWidth := true,
           style := some ButtonStyle.defaultStyle }]
    ∧ handleButtonPress
        ⟨"OK", none, some ButtonStyle.defaultStyle⟩ (some ())
      = [AlertEvent.dismissCallback]
    ∧ handleButtonPress
        ⟨"OK", none, some ButtonStyle.defaultStyle⟩ none = [] := by
  refine ⟨rfl, ?_, rfl, rfl⟩
  decide

/-- C10: a successful profile response whose profile carries an
approval-status string (under either key, picked by `||`) sets the
profile-status state to that string lowercased; when both status keys are
absent the `toLowerCase` lookup throws, the catch handler runs, and the
status resolves to `"none"`. -/
theorem profileStatus_lowercased_or_none (st : ProfileState)
    (p : DonorProfile) :
    (∀ s : String, jsOr p.approval_status p.approvalStatus = some s →
      (loadProfileStatus (.ok ⟨true, some p⟩) st).profileStatus
        = jsToLowerCase s)
    ∧ (p.approval_status = none → p.approvalStatus = none →
      (loadProfileStatus (.ok ⟨true, some p⟩) st).profileStatus = "none") := by
  constructor
  · intro s hs
    simp [loadProfileStatus, hs]
  · intro h1 h2
    simp [loadProfileStatus, jsOr, h1, h2]

/-- Witness for C10: a server-supplied `approval_status` of `"APPROVED"`
is accepted and stored as `"approved"`. -/
theorem profileStatus_lowercased_or_none_witness :
    (loadProfileStatus
      (.ok ⟨true, some ⟨some "APPROVED", none, none, none⟩⟩)
      ⟨"loading", ""⟩).profileStatus = "approved" := by
  have h := (profileStatus_lowercased_or_none ⟨"loading", ""⟩
    ⟨some "APPROVED", none, none, none⟩).1 "APPROVED" rfl
  rw [h]
  rfl
